import Mathlib

/-!
Shallow embedding of `src/webcam.py` (ThreadedWebcamStreamer and the
`/api/camera` branch of StreamHandler.do_GET), with theorems settling the
frozen claims about the frame hand-off slot, device switching, capability
probing and the HTTP switch endpoint.

Conventions of the embedding:
* A raw frame is tagged with the id of the camera it was captured under
  (field `cam`), so provenance across device switches is expressible.
* `frame_queue` is a Python `queue.Queue(maxsize=BUFFER_SIZE)`: a bounded
  FIFO list, front = oldest element.
* JPEG encoding by `cv2.imencode` is an external call; it is a parameter
  `enc : Frame → Option Bytes`, `none` meaning the encode failed (the
  OpenCV failure surfaces either as a raised `cv2.error` or as a buffer on
  which `.tobytes()` raises; both are modelled as `Except.error`).
* Thread bookkeeping is explicit: `relays` counts live capture threads;
  `stop_capture_thread` models a join that succeeds within its bounded
  timeout (the cooperative-shutdown contract), `start_capture_thread`
  spawns exactly one thread.
-/

namespace Webcam

/-- webcam.py line 17: `BUFFER_SIZE = 2`. -/
def BUFFER_SIZE : Nat := 2

/-- webcam.py line 16: `DEFAULT_FPS = 30`. -/
def DEFAULT_FPS : Nat := 30

/-- A raw captured frame, tagged with the camera it came from. -/
structure Frame where
  cam : Nat
  data : Nat
deriving DecidableEq, Repr

/-- Encoded JPEG bytes. -/
abbrev Bytes := List Nat

instance {ε α : Type} [DecidableEq ε] [DecidableEq α] :
    DecidableEq (Except ε α) := fun x y =>
  match x, y with
  | Except.ok a, Except.ok b =>
      if h : a = b then isTrue (by rw [h])
      else isFalse (fun hc => h (by injection hc))
  | Except.ok _, Except.error _ => isFalse (fun hc => by injection hc)
  | Except.error _, Except.ok _ => isFalse (fun hc => by injection hc)
  | Except.error e, Except.error e2 =>
      if h : e = e2 then isTrue (by rw [h])
      else isFalse (fun hc => h (by injection hc))

/-- The mutable state of `ThreadedWebcamStreamer` (webcam.py lines 20-35)
restricted to the fields the claims are about: `camera_id`, whether a
device handle `cap` is open, the number of live capture threads, the
`running` flag, the bounded FIFO `frame_queue` (front = oldest), and the
last frame handed out `current_frame`. -/
structure Streamer where
  camera_id : Nat
  cap : Bool
  relays : Nat
  running : Bool
  frame_queue : List Frame
  current_frame : Option Frame
deriving DecidableEq, Repr

/-- The state right after `__init__` opened camera `c0` and started the
capture thread: empty queue, no current frame (webcam.py lines 29-35). -/
def initStreamer (c0 : Nat) : Streamer :=
  { camera_id := c0, cap := true, relays := 1, running := true
    frame_queue := [], current_frame := none }

/-- One successful publication by the capture loop, webcam.py lines 94-104:
if the queue is full, drop the oldest item (`get_nowait`), then
`put(frame, block=False)`; a `queue.Full` at the put is swallowed
(`except queue.Full: pass`), leaving the queue unchanged. -/
def publish (s : Streamer) (f : Frame) : Streamer :=
  let q := if BUFFER_SIZE ≤ s.frame_queue.length then s.frame_queue.tail
           else s.frame_queue
  if q.length < BUFFER_SIZE then { s with frame_queue := q ++ [f] }
  else s

/-- The frame-selection half of `get_frame`, webcam.py lines 141-145:
`get_nowait` takes the FRONT of the FIFO and records it in
`current_frame`; on `queue.Empty` the previous `current_frame` is used.
Returns the selected frame and the updated state. -/
def get_frame_sel (s : Streamer) : Option Frame × Streamer :=
  match s.frame_queue with
  | f :: rest =>
      (some f, { s with frame_queue := rest, current_frame := some f })
  | [] => (s.current_frame, s)

/-- Full `get_frame`, webcam.py lines 140-153. The selected frame, if any,
is passed to `cv2.imencode`; the success flag is discarded
(`_, buffer = cv2.imencode(...)`) and `buffer.tobytes()` is called
unconditionally, so a failed encode raises out of `get_frame`
(`Except.error`). Only a `none` frame yields the `None` return. -/
def get_frame (enc : Frame → Option Bytes) (s : Streamer) :
    Except Unit (Option Bytes) × Streamer :=
  let (fr, s1) := get_frame_sel s
  match fr with
  | some f =>
      match enc f with
      | some b => (Except.ok (some b), s1)
      | none => (Except.error (), s1)
  | none => (Except.ok none, s1)

/-- Labels for the observable steps of a device switch (webcam.py lines
123-138 together with `open_camera` lines 53-58 and the thread helpers
lines 76-87). -/
inductive SwitchStep where
  | stop       -- stop_capture_thread: running = False, join(timeout=2)
  | setId (cid : Nat)  -- self.camera_id = camera_id
  | drain      -- while not frame_queue.empty(): get_nowait()
  | clearFrame -- self.current_frame = None
  | release    -- open_camera: if self.cap: self.cap.release()
  | openDev    -- cv2.VideoCapture(camera_id, CAP_V4L2), configured
  | start      -- start_capture_thread: spawn capture thread
deriving DecidableEq, Repr

/-- Effect of one switch step on the streamer state. `stop` models a join
that completes inside its 2 s bound (the relay count drops to 0);
`openDev` models the successful open path (a failed open raises and
aborts the switch, so completed-switch claims never see it);
`start` spawns exactly one capture thread. -/
def applyStep (s : Streamer) : SwitchStep → Streamer
  | .stop => { s with running := false, relays := 0 }
  | .setId cid => { s with camera_id := cid }
  | .drain => { s with frame_queue := [] }
  | .clearFrame => { s with current_frame := none }
  | .release => { s with cap := false }
  | .openDev => { s with cap := true }
  | .start => { s with running := true, relays := 1 }

/-- The step sequence executed by `switch_camera` for target `cid`
(webcam.py lines 123-138): stop thread, set id, drain queue, clear
current_frame, then `open_camera` (which first releases the old handle
when one is open, lines 54-56, then opens the new device), then restart
the capture thread. The `release` step is emitted only when a device
handle is currently open, exactly as the `if self.cap:` guard does. -/
def switchTrace (s : Streamer) (cid : Nat) : List SwitchStep :=
  [SwitchStep.stop, SwitchStep.setId cid, SwitchStep.drain,
   SwitchStep.clearFrame] ++
  (if s.cap then [SwitchStep.release] else []) ++
  [SwitchStep.openDev, SwitchStep.start]

/-- `switch_camera`, webcam.py lines 123-138, as the fold of its own step
trace. -/
def switch_camera (s : Streamer) (cid : Nat) : Streamer :=
  (switchTrace s cid).foldl applyStep s

/-- Events the hand-off slot sees at run time: a publication by the capture
thread, a read by a streaming client, or a device switch. -/
inductive Ev where
  | pub (f : Frame)
  | read
  | switch (cid : Nat)
deriving DecidableEq, Repr

/-- One event applied to the streamer state. -/
def stepEv (s : Streamer) : Ev → Streamer
  | .pub f => publish s f
  | .read => (get_frame_sel s).2
  | .switch cid => switch_camera s cid

/-- Run a list of events from a state. -/
def run (s : Streamer) (es : List Ev) : Streamer := es.foldl stepEv s

/-- Well-formed runs: the capture thread reads from the currently open
device, so every published frame is tagged with the camera id that is
active when it is published. -/
def WFrun : Streamer → List Ev → Prop
  | _, [] => True
  | s, e :: es => (∀ f, e = Ev.pub f → f.cam = s.camera_id) ∧
      WFrun (stepEv s e) es

/-- One pass of the capture-loop publish (webcam.py lines 96-104) with
concurrent reader takes interleaved at every gap between the writer's
primitive queue operations. `t1` readers run before the `full()` check,
`t2` between the check and the writer's `get_nowait` (this is why that
`get_nowait` sits in a `try/except queue.Empty`), `t3` between the drop
and the `put`. Each reader take removes the front element (`List.drop`
on an empty queue is the reader's own `queue.Empty`). Returns the final
queue and whether the writer's frame was stored (`put` succeeded rather
than hitting `except queue.Full: pass`). -/
def capture_publish (q : List Frame) (f : Frame) (t1 t2 t3 : Nat) :
    List Frame × Bool :=
  let q1 := q.drop t1
  if BUFFER_SIZE ≤ q1.length then
    let q2 := (q1.drop t2).tail
    let q3 := q2.drop t3
    if q3.length < BUFFER_SIZE then (q3 ++ [f], true) else (q3, false)
  else
    let q3 := q1.drop t3
    if q3.length < BUFFER_SIZE then (q3 ++ [f], true) else (q3, false)

/-- Device-handle configuration fields touched by the capability probe. -/
structure CamConfig where
  cap : Bool
  fps : Nat
  max_fps : Nat
deriving DecidableEq, Repr

/-- webcam.py line 41: the candidate frame rates, in descending order. -/
def fps_to_test : List Nat := [60, 45, 36, 30, 25, 20, 15]

/-- `detect_camera_capabilities`, webcam.py lines 37-51. The device is an
external collaborator modelled by `echo`: `echo t` is the rate
`cap.get(CAP_PROP_FPS)` reports right after `cap.set(CAP_PROP_FPS, t)`
(rates are naturals; cameras report integral rates and the code
truncates with `int(...)`). Starting from the floor 15, every echoed
value larger than the running maximum replaces it; the result is
written to both `max_fps` and `fps`. With the handle absent the probe
returns without touching anything (line 38). -/
def detect_camera_capabilities (echo : Nat → Nat) (c : CamConfig) :
    CamConfig :=
  if c.cap then
    let m := fps_to_test.foldl (fun m t => if m < echo t then echo t else m) 15
    { c with max_fps := m, fps := m }
  else c

/-- Python `int(str)` restricted to what the claims need: optional sign
followed by one or more decimal digits; anything else raises
`ValueError` (`none`). -/
def pyInt (s : String) : Option Int :=
  let digitsVal : List Char → Option Nat := fun cs =>
    if cs ≠ [] ∧ cs.all Char.isDigit then
      some (cs.foldl (fun acc c => 10 * acc + (c.toNat - 48)) 0)
    else none
  match s.toList with
  | '-' :: rest => (digitsVal rest).map (fun n => -(n : Int))
  | '+' :: rest => (digitsVal rest).map (fun n => (n : Int))
  | cs => (digitsVal cs).map (fun n => (n : Int))

/-- An HTTP response: status code and body. -/
structure HttpResp where
  status : Nat
  body : String
deriving DecidableEq, Repr

/-- The `/api/camera` branch of `StreamHandler.do_GET`, webcam.py lines
525-537, given the enumerated camera ids `cams`, the global
`current_camera` value `cur`, the streamer state and the raw value of
the `id` query parameter (`params['id'][0]`). The external device-open
outcome is the parameter `opens`: `opens cid` is whether
`cv2.VideoCapture(cid, CAP_V4L2).isOpened()` holds (webcam.py line 60).
Two ways to raise before any response is written (`Except.error`):
`int(...)` on a non-integer value raises `ValueError` (line 528), and
for an enumerated id whose device fails to open, `open_camera` raises
at line 74 inside `switch_camera` (line 532), which runs BEFORE
`send_response(200)` at line 534. When the parsed id is enumerated and
its device opens, `current_camera` is updated and the switch completes;
a non-enumerated id triggers no switch; in both of those cases the
branch then sends `200` with body `OK`. -/
def api_camera (opens : Nat → Bool) (cams : List Int) (cur : Nat)
    (s : Streamer) (idStr : String) :
    Except Unit (HttpResp × Nat × Streamer) :=
  match pyInt idStr with
  | none => Except.error ()
  | some n =>
      if n ∈ cams then
        if opens n.toNat then
          Except.ok ({ status := 200, body := "OK" }, n.toNat,
            switch_camera s n.toNat)
        else Except.error ()
      else
        Except.ok ({ status := 200, body := "OK" }, cur, s)

/-- States visited while executing a list of switch steps, the start state
included. -/
def statesAlong (s : Streamer) : List SwitchStep → List Streamer
  | [] => [s]
  | st :: rest => s :: statesAlong (applyStep s st) rest

/-- Discriminator for switch events. -/
def Ev.isSwitch : Ev → Bool
  | .switch _ => true
  | _ => false

/-- Every frame the state can still hand out was captured under camera
`B`: this covers the buffered frames and the last-known frame. -/
def allFrom (s : Streamer) (B : Nat) : Prop :=
  s.camera_id = B ∧ (∀ f ∈ s.frame_queue, f.cam = B) ∧
    (∀ f, s.current_frame = some f → f.cam = B)

/-- Some frame is available to hand out: the queue is nonempty or a
last-known frame exists. -/
def hasFrame (s : Streamer) : Prop :=
  s.frame_queue ≠ [] ∨ s.current_frame ≠ none

section Helpers

lemma foldl_max_le (k : Nat) : ∀ (l : List Nat) (a : Nat),
    (∀ x ∈ l, x ≤ k) → a ≤ k → l.foldl max a ≤ k := by
  intro l
  induction l with
  | nil => intro a _ ha; simpa using ha
  | cons x xs ih =>
      intro a h ha
      exact ih (max a x) (fun y hy => h y (List.mem_cons_of_mem _ hy))
        (max_le ha (h x (List.mem_cons_self _ _)))

lemma le_foldl_max_init : ∀ (l : List Nat) (a : Nat), a ≤ l.foldl max a := by
  intro l
  induction l with
  | nil => intro a; simp
  | cons x xs ih =>
      intro a
      exact le_trans (le_max_left a x) (ih (max a x))

lemma le_foldl_max_mem : ∀ (l : List Nat) (a x : Nat), x ∈ l →
    x ≤ l.foldl max a := by
  intro l
  induction l with
  | nil => intro a x hx; simp at hx
  | cons y ys ih =>
      intro a x hx
      rcases List.mem_cons.mp hx with h | h
      · subst h
        exact le_trans (le_max_right a x) (le_foldl_max_init ys (max a x))
      · exact ih (max a y) x h

lemma probe_fold_eq_max (echo : Nat → Nat) (l : List Nat) : ∀ (a : Nat),
    l.foldl (fun m t => if m < echo t then echo t else m) a =
      (l.map echo).foldl max a := by
  induction l with
  | nil => intro a; simp
  | cons x xs ih =>
      intro a
      simp only [List.foldl_cons, List.map_cons]
      have h : (if a < echo x then echo x else a) = max a (echo x) := by
        rcases Nat.lt_or_ge a (echo x) with h | h
        · simp [h, Nat.max_eq_right (Nat.le_of_lt h)]
        · simp [Nat.not_lt.mpr h, Nat.max_eq_left h]
      rw [h, ih]

end Helpers

/-- C7: the capability probe (webcam.py lines 37-51) tests the candidate
rates [60, 45, 36, 30, 25, 20, 15] in strictly descending order and
adopts, as both `fps` and `max_fps`, the maximum rate the device echoes
back, floored at 15; against a device that acknowledges at most 30 (and
echoes 30 when asked for 30) the adopted rate is exactly 30, and a
device that never echoes anything above 15 leaves the rate at the
floor 15. -/
theorem c7_capability_probe (echo : Nat → Nat) (c : CamConfig)
    (hcap : c.cap = true) :
    (detect_camera_capabilities echo c).fps =
        (detect_camera_capabilities echo c).max_fps ∧
    (detect_camera_capabilities echo c).max_fps =
        (fps_to_test.map echo).foldl max 15 ∧
    List.Pairwise (fun a b => b < a) fps_to_test ∧
    ((∀ t ∈ fps_to_test, echo t ≤ 30) → echo 30 = 30 →
        (detect_camera_capabilities echo c).fps = 30) ∧
    ((∀ t ∈ fps_to_test, echo t ≤ 15) →
        (detect_camera_capabilities echo c).fps = 15) := by
  have hfold : (detect_camera_capabilities echo c).max_fps =
      (fps_to_test.map echo).foldl max 15 := by
    simp [detect_camera_capabilities, hcap, probe_fold_eq_max]
  have hfps : (detect_camera_capabilities echo c).fps =
      (detect_camera_capabilities echo c).max_fps := by
    simp [detect_camera_capabilities, hcap]
  refine ⟨hfps, hfold, by decide, ?_, ?_⟩
  · intro hle h30
    rw [hfps, hfold]
    refine Nat.le_antisymm ?_ ?_
    · exact foldl_max_le 30 _ 15
        (by
          intro x hx
          rcases List.mem_map.mp hx with ⟨t, ht, rfl⟩
          exact hle t ht)
        (by norm_num)
    · have h30m : (30 : Nat) ∈ fps_to_test.map echo := by
        rw [← h30]
        exact List.mem_map_of_mem echo (by decide)
      exact le_foldl_max_mem _ 15 30 h30m
  · intro hle
    rw [hfps, hfold]
    refine Nat.le_antisymm ?_ (le_foldl_max_init _ 15)
    exact foldl_max_le 15 _ 15
      (by
        intro x hx
        rcases List.mem_map.mp hx with ⟨t, ht, rfl⟩
        exact hle t ht)
      le_rfl

/-- Witness for C7 at concrete devices: one that clamps every request to
30 adopts 30; one that echoes 0 for every request stays at the floor. -/
theorem c7_capability_probe_witness :
    (detect_camera_capabilities (fun t => min t 30)
        { cap := true, fps := 30, max_fps := 30 }).fps = 30 ∧
    (detect_camera_capabilities (fun _ => 0)
        { cap := true, fps := 30, max_fps := 30 }).fps = 15 := by
  constructor
  · exact (c7_capability_probe (fun t => min t 30)
      { cap := true, fps := 30, max_fps := 30 } rfl).2.2.2.1
      (by decide) (by decide)
  · exact (c7_capability_probe (fun _ => 0)
      { cap := true, fps := 30, max_fps := 30 } rfl).2.2.2.2 (by decide)

/-- C4: one publish pass of the capture loop (webcam.py lines 96-104),
interleaved with any numbers `t1 t2 t3` of concurrent reader takes at
the gaps between its queue operations, starting from any queue within
the bound `BUFFER_SIZE`. The writer's `put` always succeeds (it never
blocks, being `block=False`, and never hits `except queue.Full`, so the
writer's own frame is never the one discarded); the new frame ends up
as the newest element of the queue; the bound is preserved; and with
the slot full and no concurrent takes, exactly the oldest unread item
is dropped and the new frame stored (overwrite-on-full). -/
theorem c4_writer_never_blocked (q : List Frame) (f : Frame)
    (t1 t2 t3 : Nat) (hq : q.length ≤ BUFFER_SIZE) :
    (capture_publish q f t1 t2 t3).2 = true ∧
    (capture_publish q f t1 t2 t3).1.getLast? = some f ∧
    (capture_publish q f t1 t2 t3).1.length ≤ BUFFER_SIZE ∧
    (q.length = BUFFER_SIZE → capture_publish q f 0 0 0 =
        (q.tail ++ [f], true)) := by
  have hput : ∀ (l : List Frame), l.length < BUFFER_SIZE →
      ((l ++ [f]).getLast? = some f ∧ (l ++ [f]).length ≤ BUFFER_SIZE) := by
    intro l hl
    constructor
    · simp [List.getLast?_append]
    · simp only [List.length_append, List.length_singleton]
      omega
  have hmain : (capture_publish q f t1 t2 t3).2 = true ∧
      (capture_publish q f t1 t2 t3).1.getLast? = some f ∧
      (capture_publish q f t1 t2 t3).1.length ≤ BUFFER_SIZE := by
    unfold capture_publish
    dsimp only
    split
    · rename_i hfull
      have hlen : (((q.drop t1).drop t2).tail.drop t3).length < BUFFER_SIZE := by
        simp only [List.length_drop, List.length_tail, BUFFER_SIZE] at *
        omega
      rw [if_pos hlen]
      exact ⟨rfl, (hput _ hlen).1, (hput _ hlen).2⟩
    · rename_i hnotfull
      have hlen : ((q.drop t1).drop t3).length < BUFFER_SIZE := by
        simp only [List.length_drop, BUFFER_SIZE] at *
        omega
      rw [if_pos hlen]
      exact ⟨rfl, (hput _ hlen).1, (hput _ hlen).2⟩
  refine ⟨hmain.1, hmain.2.1, hmain.2.2, ?_⟩
  intro hfull
  unfold capture_publish
  dsimp only
  have h1 : BUFFER_SIZE ≤ (q.drop 0).length := by simp [hfull]
  rw [if_pos h1]
  have h2 : (((q.drop 0).drop 0).tail.drop 0).length < BUFFER_SIZE := by
    simp only [List.drop_zero, List.length_tail, BUFFER_SIZE] at *
    omega
  rw [if_pos h2]
  simp

/-- Witness for C4: a full queue of two frames from camera 0, one reader
take racing at each gap; the writer still stores its frame as the
newest element. -/
theorem c4_writer_never_blocked_witness :
    ([(⟨0, 1⟩ : Frame), ⟨0, 2⟩].length ≤ BUFFER_SIZE) ∧
    (capture_publish [⟨0, 1⟩, ⟨0, 2⟩] ⟨0, 3⟩ 1 1 1).2 = true ∧
    (capture_publish [⟨0, 1⟩, ⟨0, 2⟩] ⟨0, 3⟩ 1 1 1).1.getLast? =
      some ⟨0, 3⟩ := by
  have h := c4_writer_never_blocked [⟨0, 1⟩, ⟨0, 2⟩] ⟨0, 3⟩ 1 1 1
    (by decide)
  exact ⟨by decide, h.1, h.2.1⟩

/-- C5: when a device handle is open (as it always is while streaming),
`switch_camera` (webcam.py lines 123-138) performs exactly, and in this
order: stop the capture thread (joined with its 2 s bound), set the new
id, drain the buffered frames out of the hand-off queue, clear the
last-known frame, release the old device handle, open the new device
handle, restart the capture thread; the resulting state is the new
camera with an empty slot, no last-known frame, an open handle and
exactly one capture thread. -/
theorem c5_switch_step_order (s : Streamer) (cid : Nat)
    (hcap : s.cap = true) :
    switchTrace s cid =
      [SwitchStep.stop, SwitchStep.setId cid, SwitchStep.drain,
       SwitchStep.clearFrame, SwitchStep.release, SwitchStep.openDev,
       SwitchStep.start] ∧
    switch_camera s cid =
      { camera_id := cid, cap := true, relays := 1, running := true,
        frame_queue := [], current_frame := none } := by
  constructor
  · simp [switchTrace, hcap]
  · simp [switch_camera, switchTrace, hcap, applyStep]

/-- Witness for C5 at a concrete streaming state holding one buffered
frame. -/
theorem c5_switch_step_order_witness :
    switchTrace (publish (initStreamer 0) ⟨0, 7⟩) 2 =
      [SwitchStep.stop, SwitchStep.setId 2, SwitchStep.drain,
       SwitchStep.clearFrame, SwitchStep.release, SwitchStep.openDev,
       SwitchStep.start] ∧
    switch_camera (publish (initStreamer 0) ⟨0, 7⟩) 2 =
      { camera_id := 2, cap := true, relays := 1, running := true,
        frame_queue := [], current_frame := none } :=
  c5_switch_step_order (publish (initStreamer 0) ⟨0, 7⟩) 2 (by decide)

section SwitchHelpers

lemma statesAlong_ne_nil : ∀ (l : List SwitchStep) (s : Streamer),
    statesAlong s l ≠ [] := by
  intro l
  cases l <;> intro s <;> simp [statesAlong]

lemma statesAlong_append : ∀ (l1 l2 : List SwitchStep) (s : Streamer),
    statesAlong s (l1 ++ l2) =
      (statesAlong s l1).dropLast ++ statesAlong (l1.foldl applyStep s) l2 := by
  intro l1
  induction l1 with
  | nil => intro l2 s; simp [statesAlong]
  | cons st rest ih =>
      intro l2 s
      simp only [List.cons_append, statesAlong, List.foldl_cons,
        List.append_eq]
      rw [ih l2 (applyStep s st),
        List.dropLast_cons_of_ne_nil (statesAlong_ne_nil rest (applyStep s st))]
      simp

lemma relays_le_one_along (s : Streamer) (cid : Nat) (h : s.relays ≤ 1) :
    ∀ t ∈ statesAlong s (switchTrace s cid), t.relays ≤ 1 := by
  intro t ht
  cases hc : s.cap <;>
    simp [switchTrace, hc, statesAlong, applyStep] at ht <;>
    rcases ht with rfl | rfl | rfl | rfl | rfl | rfl | rfl | rfl <;>
    simp_all

lemma switch_camera_relays (s : Streamer) (cid : Nat) :
    (switch_camera s cid).relays = 1 ∧
    (switch_camera s cid).camera_id = cid ∧
    (switch_camera s cid).frame_queue = [] ∧
    (switch_camera s cid).current_frame = none ∧
    (switch_camera s cid).cap = true := by
  cases hc : s.cap <;> simp [switch_camera, switchTrace, hc, applyStep]

end SwitchHelpers

/-- C8: two switch requests, for ids B and C, arriving while camera A
streams with one live capture thread. The server is a plain
single-threaded `HTTPServer` (webcam.py line 575), so the two
`/api/camera` handlers run one after the other and their
stop/open/start steps cannot interleave: for either arrival order the
combined micro-step execution keeps the number of live capture threads
at most 1 in every intermediate state, and the final state has exactly
the single device of the later request open (B or C, never a mixture)
with exactly one capture thread. -/
theorem c8_serialized_switches (s : Streamer) (A B C : Nat)
    (hA : s.camera_id = A) (hrel : s.relays ≤ 1) :
    (∀ t ∈ statesAlong s
        (switchTrace s B ++ switchTrace (switch_camera s B) C),
      t.relays ≤ 1) ∧
    (switch_camera (switch_camera s B) C).camera_id = C ∧
    (switch_camera (switch_camera s B) C).relays = 1 ∧
    (∀ t ∈ statesAlong s
        (switchTrace s C ++ switchTrace (switch_camera s C) B),
      t.relays ≤ 1) ∧
    (switch_camera (switch_camera s C) B).camera_id = B ∧
    (switch_camera (switch_camera s C) B).relays = 1 := by
  have hone : ∀ (cid1 cid2 : Nat), ∀ t ∈ statesAlong s
      (switchTrace s cid1 ++ switchTrace (switch_camera s cid1) cid2),
      t.relays ≤ 1 := by
    intro cid1 cid2 t ht
    rw [statesAlong_append] at ht
    rcases List.mem_append.mp ht with h | h
    · exact relays_le_one_along s cid1 hrel t (List.dropLast_subset _ h)
    · have h1 : (switch_camera s cid1).relays ≤ 1 :=
        le_of_eq (switch_camera_relays s cid1).1
      exact relays_le_one_along (switch_camera s cid1) cid2 h1 t
        (by simpa [switch_camera] using h)
  refine ⟨hone B C, ?_, ?_, hone C B, ?_, ?_⟩
  · exact (switch_camera_relays (switch_camera s B) C).2.1
  · exact (switch_camera_relays (switch_camera s B) C).1
  · exact (switch_camera_relays (switch_camera s C) B).2.1
  · exact (switch_camera_relays (switch_camera s C) B).1

/-- Witness for C8: concrete switches to cameras 2 and 4 from camera 0. -/
theorem c8_serialized_switches_witness :
    ((initStreamer 0).camera_id = 0 ∧ (initStreamer 0).relays ≤ 1) ∧
    (switch_camera (switch_camera (initStreamer 0) 2) 4).camera_id = 4 ∧
    (switch_camera (switch_camera (initStreamer 0) 4) 2).camera_id = 2 := by
  have h := c8_serialized_switches (initStreamer 0) 0 2 4 rfl
    (by decide)
  exact ⟨⟨rfl, by decide⟩, h.2.1, h.2.2.2.2.1⟩

section TraceHelpers

lemma allFrom_switch (s : Streamer) (B : Nat) :
    allFrom (switch_camera s B) B := by
  rcases switch_camera_relays s B with ⟨-, hid, hq, hcf, -⟩
  refine ⟨hid, ?_, ?_⟩
  · intro f hf; rw [hq] at hf; simp at hf
  · intro f hf; rw [hcf] at hf; simp at hf

lemma allFrom_publish (s : Streamer) (B : Nat) (f : Frame)
    (h : allFrom s B) (hf : f.cam = s.camera_id) :
    allFrom (publish s f) B := by
  obtain ⟨hid, hq, hcf⟩ := h
  have hq1 : ∀ g ∈ (if BUFFER_SIZE ≤ s.frame_queue.length
      then s.frame_queue.tail else s.frame_queue), g.cam = B := by
    intro g hg
    split at hg
    · exact hq g ((List.tail_sublist _).subset hg)
    · exact hq g hg
  unfold publish
  dsimp only
  by_cases hlen : (if BUFFER_SIZE ≤ s.frame_queue.length
      then s.frame_queue.tail else s.frame_queue).length < BUFFER_SIZE
  · rw [if_pos hlen]
    refine ⟨hid, ?_, hcf⟩
    intro g hg
    rcases List.mem_append.mp hg with hg | hg
    · exact hq1 g hg
    · simp at hg
      subst hg
      rw [hf, hid]
  · rw [if_neg hlen]
    exact ⟨hid, hq, hcf⟩

lemma allFrom_read (s : Streamer) (B : Nat) (h : allFrom s B) :
    allFrom (get_frame_sel s).2 B := by
  obtain ⟨hid, hq, hcf⟩ := h
  unfold get_frame_sel
  cases hqe : s.frame_queue with
  | nil => exact ⟨hid, hq, hcf⟩
  | cons f rest =>
      refine ⟨hid, ?_, ?_⟩
      · intro g hg
        exact hq g (by rw [hqe]; exact List.mem_cons_of_mem _ hg)
      · intro g hg
        simp at hg
        subst hg
        exact hq _ (by rw [hqe]; exact List.mem_cons_self _ _)

lemma allFrom_run (B : Nat) : ∀ (es : List Ev) (s : Streamer),
    allFrom s B → (∀ e ∈ es, e.isSwitch = false) → WFrun s es →
    allFrom (run s es) B := by
  intro es
  induction es with
  | nil => intro s h _ _; exact h
  | cons e rest ih =>
      intro s h hns hwf
      have hstep : allFrom (stepEv s e) B := by
        cases e with
        | pub f =>
            exact allFrom_publish s B f h (hwf.1 f rfl)
        | read => exact allFrom_read s B h
        | switch cid =>
            have := hns (Ev.switch cid) (List.mem_cons_self _ _)
            simp [Ev.isSwitch] at this
      exact ih (stepEv s e) hstep
        (fun e2 he2 => hns e2 (List.mem_cons_of_mem _ he2)) hwf.2

/-- After any publication, the queue is nonempty. -/
lemma publish_queue_ne_nil (s : Streamer) (f : Frame) :
    (publish s f).frame_queue ≠ [] := by
  unfold publish
  dsimp only
  by_cases hlen : (if BUFFER_SIZE ≤ s.frame_queue.length
      then s.frame_queue.tail else s.frame_queue).length < BUFFER_SIZE
  · rw [if_pos hlen]
    simp
  · rw [if_neg hlen]
    intro hnil
    rw [not_lt, hnil] at hlen
    simp [BUFFER_SIZE] at hlen

lemma hasFrame_publish (s : Streamer) (f : Frame) :
    hasFrame (publish s f) :=
  Or.inl (publish_queue_ne_nil s f)

lemma hasFrame_read (s : Streamer) (h : hasFrame s) :
    hasFrame (get_frame_sel s).2 := by
  unfold get_frame_sel
  cases hqe : s.frame_queue with
  | nil =>
      rcases h with h | h
      · exact absurd hqe h
      · exact Or.inr h
  | cons f rest => exact Or.inr (by simp)

lemma hasFrame_run : ∀ (es : List Ev) (s : Streamer), hasFrame s →
    (∀ e ∈ es, e.isSwitch = false) → hasFrame (run s es) := by
  intro es
  induction es with
  | nil => intro s h _; exact h
  | cons e rest ih =>
      intro s h hns
      have hstep : hasFrame (stepEv s e) := by
        cases e with
        | pub f => exact hasFrame_publish s f
        | read => exact hasFrame_read s h
        | switch cid =>
            have := hns (Ev.switch cid) (List.mem_cons_self _ _)
            simp [Ev.isSwitch] at this
      exact ih (stepEv s e) hstep
        (fun e2 he2 => hns e2 (List.mem_cons_of_mem _ he2))

lemma get_frame_sel_none (s : Streamer) (h : hasFrame s) :
    (get_frame_sel s).1 ≠ none := by
  unfold get_frame_sel
  cases hqe : s.frame_queue with
  | nil =>
      rcases h with hx | hx
      · exact absurd hqe hx
      · simpa using hx
  | cons f rest => simp

end TraceHelpers

/-- C3: once a switch from any state to device `B` has completed, every
subsequent `get_frame` performed before or between further publications
— along any well-formed switch-free event sequence — returns either no
frame or a frame captured under `B`; it can never return a frame from
the previous device. -/
theorem c3_no_stale_frame_after_switch (s0 : Streamer) (B : Nat)
    (es : List Ev) (hns : ∀ e ∈ es, e.isSwitch = false)
    (hwf : WFrun (switch_camera s0 B) es) :
    ∀ f, (get_frame_sel (run (switch_camera s0 B) es)).1 = some f →
      f.cam = B := by
  have hinv : allFrom (run (switch_camera s0 B) es) B :=
    allFrom_run B es (switch_camera s0 B) (allFrom_switch s0 B) hns hwf
  obtain ⟨hid, hq, hcf⟩ := hinv
  intro f hf
  unfold get_frame_sel at hf
  cases hqe : (run (switch_camera s0 B) es).frame_queue with
  | nil =>
      rw [hqe] at hf
      simp at hf
      exact hcf f hf
  | cons g rest =>
      rw [hqe] at hf
      simp at hf
      subst hf
      exact hq _ (by rw [hqe]; exact List.mem_cons_self _ _)

/-- Witness for C3: switch from camera 0 to camera 1, then one publication
under camera 1 and one read; the read hands out a frame from camera 1. -/
theorem c3_no_stale_frame_after_switch_witness :
    (∀ e ∈ [Ev.pub ⟨1, 5⟩, Ev.read], e.isSwitch = false) ∧
    WFrun (switch_camera (initStreamer 0) 1) [Ev.pub ⟨1, 5⟩, Ev.read] ∧
    (∀ f, (get_frame_sel (run (switch_camera (initStreamer 0) 1)
        [Ev.pub ⟨1, 5⟩, Ev.read])).1 = some f → f.cam = 1) := by
  have hwf : WFrun (switch_camera (initStreamer 0) 1)
      [Ev.pub ⟨1, 5⟩, Ev.read] := by
    refine ⟨?_, ?_, trivial⟩
    · intro f hf
      cases hf
      decide
    · intro f hf
      cases hf
  exact ⟨by decide, hwf,
    c3_no_stale_frame_after_switch (initStreamer 0) 1
      [Ev.pub ⟨1, 5⟩, Ev.read] (by decide) hwf⟩

/-- C1 counterexample: the hand-off slot is a FIFO `queue.Queue(maxsize=2)`,
so with two buffered frames `get_frame` hands out the OLDEST one, not
the most recently published: after publishing frames 1 then 2, frame 2
(the most recent) is buffered, yet the accessor returns frame 1. -/
theorem c1_counterexample :
    (run (initStreamer 0)
        [Ev.pub ⟨0, 1⟩, Ev.pub ⟨0, 2⟩]).frame_queue.getLast? =
      some ⟨0, 2⟩ ∧
    (get_frame_sel (run (initStreamer 0)
        [Ev.pub ⟨0, 1⟩, Ev.pub ⟨0, 2⟩])).1 = some ⟨0, 1⟩ ∧
    (⟨0, 1⟩ : Frame) ≠ ⟨0, 2⟩ := by decide

/-- C1 amended: `get_frame` returns the OLDEST buffered frame when the
slot is nonempty (the slot is a FIFO of capacity 2, front first); when
the slot is momentarily empty it returns the last frame it previously
handed out, which it records in `current_frame` at every successful
take; and it returns none only when no frame has been published since
the start or the last device switch — in particular any publication
followed only by switch-free events leaves the accessor non-none. -/
theorem c1_read_accessor_amended :
    (∀ (s : Streamer) (f : Frame) (q : List Frame),
        s.frame_queue = f :: q → (get_frame_sel s).1 = some f) ∧
    (∀ s : Streamer, s.frame_queue = [] →
        (get_frame_sel s).1 = s.current_frame) ∧
    (∀ (s : Streamer) (f : Frame), (get_frame_sel s).1 = some f →
        ((get_frame_sel s).2).current_frame = some f) ∧
    (∀ (s : Streamer) (f : Frame) (es : List Ev),
        (∀ e ∈ es, e.isSwitch = false) →
        (get_frame_sel (run (stepEv s (Ev.pub f)) es)).1 ≠ none) := by
  refine ⟨?_, ?_, ?_, ?_⟩
  · intro s f q hq
    unfold get_frame_sel
    rw [hq]
  · intro s hq
    unfold get_frame_sel
    rw [hq]
  · intro s f hf
    unfold get_frame_sel at hf ⊢
    cases hq : s.frame_queue with
    | nil =>
        rw [hq] at hf
        simpa using hf
    | cons g rest =>
        rw [hq] at hf
        simp at hf ⊢
        exact hf
  · intro s f es hns
    exact get_frame_sel_none _
      (hasFrame_run es (publish s f) (hasFrame_publish s f) hns)

/-- Witness for the amended C1, exercising all four conjuncts at concrete
states. -/
theorem c1_read_accessor_amended_witness :
    ((run (initStreamer 0) [Ev.pub ⟨0, 1⟩]).frame_queue = [⟨0, 1⟩] ∧
      (get_frame_sel (run (initStreamer 0) [Ev.pub ⟨0, 1⟩])).1 =
        some ⟨0, 1⟩) ∧
    ((initStreamer 0).frame_queue = [] ∧
      (get_frame_sel (initStreamer 0)).1 = (initStreamer 0).current_frame) ∧
    ((get_frame_sel (run (initStreamer 0) [Ev.pub ⟨0, 1⟩])).2).current_frame =
      some ⟨0, 1⟩ ∧
    ((∀ e ∈ [Ev.read], e.isSwitch = false) ∧
      (get_frame_sel (run (stepEv (initStreamer 0) (Ev.pub ⟨0, 9⟩))
        [Ev.read])).1 ≠ none) := by
  refine ⟨⟨by decide, ?_⟩, ⟨rfl, ?_⟩, ?_, by decide, ?_⟩
  · exact c1_read_accessor_amended.1 _ ⟨0, 1⟩ [] (by decide)
  · exact c1_read_accessor_amended.2.1 _ rfl
  · exact c1_read_accessor_amended.2.2.1 _ ⟨0, 1⟩ (by decide)
  · exact c1_read_accessor_amended.2.2.2 (initStreamer 0) ⟨0, 9⟩ [Ev.read]
      (by decide)

/-- C2 counterexample: with two frames buffered (BUFFER_SIZE = 2), two
consecutive `get_frame` calls with no publication between them return
two DIFFERENT frames — the FIFO drains, so the read is not idempotent
between publications. -/
theorem c2_counterexample :
    (get_frame (fun f => some [f.data]) (run (initStreamer 0)
        [Ev.pub ⟨0, 1⟩, Ev.pub ⟨0, 2⟩])).1 = Except.ok (some [1]) ∧
    (get_frame (fun f => some [f.data]) ((get_frame (fun f => some [f.data])
        (run (initStreamer 0) [Ev.pub ⟨0, 1⟩, Ev.pub ⟨0, 2⟩])).2)).1 =
      Except.ok (some [2]) ∧
    (Except.ok (some [1]) : Except Unit (Option Bytes)) ≠
      Except.ok (some [2]) := by decide

/-- C2 amended: consecutive `get_frame` calls with no publication between
them return the same result provided at most one frame is buffered at
the first call (after the first call the queue is drained, so from the
second call on the read is idempotent until the next publish); with two
frames buffered the FIFO makes consecutive reads differ. -/
theorem c2_idempotent_read_amended (enc : Frame → Option Bytes)
    (s : Streamer) (h : s.frame_queue.length ≤ 1) :
    (get_frame enc s).1 = (get_frame enc (get_frame enc s).2).1 := by
  cases hq : s.frame_queue with
  | nil =>
      cases hc : s.current_frame with
      | none => simp [get_frame, get_frame_sel, hq, hc]
      | some f =>
          cases henc : enc f <;>
            simp [get_frame, get_frame_sel, hq, hc, henc]
  | cons f rest =>
      cases rest with
      | nil =>
          cases henc : enc f <;>
            simp [get_frame, get_frame_sel, hq, henc]
      | cons g more =>
          rw [hq] at h
          simp at h

/-- Witness for the amended C2: one buffered frame, two consecutive reads
agree. -/
theorem c2_idempotent_read_amended_witness :
    (run (initStreamer 0) [Ev.pub ⟨0, 5⟩]).frame_queue.length ≤ 1 ∧
    (get_frame (fun f => some [f.data])
        (run (initStreamer 0) [Ev.pub ⟨0, 5⟩])).1 =
      (get_frame (fun f => some [f.data])
        ((get_frame (fun f => some [f.data])
          (run (initStreamer 0) [Ev.pub ⟨0, 5⟩])).2)).1 :=
  ⟨by decide, c2_idempotent_read_amended (fun f => some [f.data])
    (run (initStreamer 0) [Ev.pub ⟨0, 5⟩]) (by decide)⟩

/-- C6 counterexample: `get_frame` discards the `cv2.imencode` success
flag (`_, buffer = cv2.imencode(...)`) and has no exception handling,
so with a frame available whose encode fails, the failure raises out of
`get_frame` instead of yielding the no-output result. -/
theorem c6_counterexample :
    (get_frame (fun _ => none)
        (run (initStreamer 0) [Ev.pub ⟨0, 1⟩])).1 = Except.error () ∧
    (Except.error () : Except Unit (Option Bytes)) ≠ Except.ok none := by
  decide

/-- C6 amended: `get_frame` performs no error handling around JPEG
encoding. Whenever a frame is available to encode (buffered, or held as
last-known frame with an empty slot) and its encode fails, the failure
propagates out of `get_frame` as an exception; the quiet no-output
return occurs exactly when no frame is available at all. -/
theorem c6_encode_failure_raises (enc : Frame → Option Bytes)
    (s : Streamer) :
    (∀ f q, s.frame_queue = f :: q → enc f = none →
        (get_frame enc s).1 = Except.error ()) ∧
    (∀ f, s.frame_queue = [] → s.current_frame = some f → enc f = none →
        (get_frame enc s).1 = Except.error ()) ∧
    (s.frame_queue = [] → s.current_frame = none →
        (get_frame enc s).1 = Except.ok none) := by
  refine ⟨?_, ?_, ?_⟩
  · intro f q hq henc
    simp [get_frame, get_frame_sel, hq, henc]
  · intro f hq hc henc
    simp [get_frame, get_frame_sel, hq, hc, henc]
  · intro hq hc
    simp [get_frame, get_frame_sel, hq, hc]

/-- Witness for the amended C6 at a concrete failing encoder and a
concrete state holding one frame, plus the genuine no-frame case. -/
theorem c6_encode_failure_raises_witness :
    ((run (initStreamer 0) [Ev.pub ⟨0, 1⟩]).frame_queue = [⟨0, 1⟩] ∧
      (get_frame (fun _ => none)
        (run (initStreamer 0) [Ev.pub ⟨0, 1⟩])).1 = Except.error ()) ∧
    ((initStreamer 0).frame_queue = [] ∧
      (initStreamer 0).current_frame = none ∧
      (get_frame (fun _ => none) (initStreamer 0)).1 = Except.ok none) := by
  refine ⟨⟨by decide, ?_⟩, ⟨rfl, rfl, ?_⟩⟩
  · exact (c6_encode_failure_raises (fun _ => none)
      (run (initStreamer 0) [Ev.pub ⟨0, 1⟩])).1 ⟨0, 1⟩ [] (by decide) rfl
  · exact (c6_encode_failure_raises (fun _ => none)
      (initStreamer 0)).2.2 rfl rfl

/-- C9 counterexample: id 5 is not in the enumerated camera set {0, 2},
no switch is triggered (the streamer state is returned unchanged, no
device open is even attempted — the open outcome is irrelevant), and
yet the handler still answers with the acceptance response `200`/`OK` —
the acceptance response is not reserved for accepted switches. -/
theorem c9_counterexample :
    (5 : Int) ∉ ([0, 2] : List Int) ∧
    api_camera (fun _ => true) [0, 2] 0 (initStreamer 0) "5" =
      Except.ok ({ status := 200, body := "OK" }, 0, initStreamer 0) ∧
    api_camera (fun _ => false) [0, 2] 0 (initStreamer 0) "5" =
      Except.ok ({ status := 200, body := "OK" }, 0, initStreamer 0) := by
  decide

/-- C9 amended: for a request whose `id` value parses as an integer the
handler has exactly three outcomes. A non-enumerated id triggers no
switch and no device open, yet still receives the acceptance response
`200`/`OK` with the state untouched. An enumerated id whose device
opens successfully completes the switch and receives the same
`200`/`OK`. An enumerated id whose device FAILS to open makes
`open_camera` raise out of `switch_camera` before `send_response`, so
no response is sent at all. Hence `200`/`OK` is neither produced
exactly on acceptance, nor guaranteed on acceptance attempts. -/
theorem c9_api_response_amended (opens : Nat → Bool) (cams : List Int)
    (cur : Nat) (s : Streamer) (v : String) (n : Int)
    (h : pyInt v = some n) :
    (n ∉ cams → api_camera opens cams cur s v =
        Except.ok ({ status := 200, body := "OK" }, cur, s)) ∧
    (n ∈ cams → opens n.toNat = true →
        api_camera opens cams cur s v =
          Except.ok ({ status := 200, body := "OK" }, n.toNat,
            switch_camera s n.toNat)) ∧
    (n ∈ cams → opens n.toNat = false →
        api_camera opens cams cur s v = Except.error ()) := by
  refine ⟨?_, ?_, ?_⟩
  · intro hmem
    simp [api_camera, h, hmem]
  · intro hmem hop
    simp [api_camera, h, hmem, hop]
  · intro hmem hop
    simp [api_camera, h, hmem, hop]

/-- Witness for the amended C9, exercising all three outcomes: the
non-enumerated id 5 gets 200/OK with no switch; the enumerated id 2
with an opening device gets 200/OK with the switch done; the same id 2
with a failing device gets no response. -/
theorem c9_api_response_amended_witness :
    (pyInt "5" = some 5 ∧ (5 : Int) ∉ ([0, 2] : List Int) ∧
      api_camera (fun _ => true) [0, 2] 0 (initStreamer 0) "5" =
        Except.ok ({ status := 200, body := "OK" }, 0, initStreamer 0)) ∧
    (pyInt "2" = some 2 ∧ (2 : Int) ∈ ([0, 2] : List Int) ∧
      api_camera (fun _ => true) [0, 2] 0 (initStreamer 0) "2" =
        Except.ok ({ status := 200, body := "OK" }, 2,
          switch_camera (initStreamer 0) 2)) ∧
    api_camera (fun _ => false) [0, 2] 0 (initStreamer 0) "2" =
      Except.error () := by
  refine ⟨⟨by decide, by decide, ?_⟩, ⟨by decide, by decide, ?_⟩, ?_⟩
  · exact (c9_api_response_amended (fun _ => true) [0, 2] 0
      (initStreamer 0) "5" 5 (by decide)).1 (by decide)
  · exact (c9_api_response_amended (fun _ => true) [0, 2] 0
      (initStreamer 0) "2" 2 (by decide)).2.1 (by decide) rfl
  · exact (c9_api_response_amended (fun _ => false) [0, 2] 0
      (initStreamer 0) "2" 2 (by decide)).2.2 (by decide) rfl

/-- C10: a request to `/api/camera` whose `id` value is not an integer
(here `id=abc`) makes `int(params['id'][0])` raise before any response
line is written — the branch produces no response at all, whatever the
devices would do — so the branch is total only for integer-valued ids.
On integer ids, the branch answers on the paths that reach
`send_response`: always for a non-enumerated id, and for an enumerated
id whenever its device opens (an enumerated id whose device fails to
open raises from the switch instead, settled under C9). -/
theorem c10_nonint_id_raises :
    (pyInt "abc" = none ∧
      api_camera (fun _ => true) [0, 2] 0 (initStreamer 0) "abc" =
        Except.error () ∧
      api_camera (fun _ => false) [0, 2] 0 (initStreamer 0) "abc" =
        Except.error ()) ∧
    (∀ (opens : Nat → Bool) (cams : List Int) (cur : Nat) (s : Streamer)
        (v : String) (n : Int), pyInt v = some n → n ∉ cams →
        ∃ r, api_camera opens cams cur s v = Except.ok r) ∧
    (∀ (opens : Nat → Bool) (cams : List Int) (cur : Nat) (s : Streamer)
        (v : String) (n : Int), pyInt v = some n → n ∈ cams →
        opens n.toNat = true →
        ∃ r, api_camera opens cams cur s v = Except.ok r) := by
  refine ⟨⟨by decide, by decide, by decide⟩, ?_, ?_⟩
  · intro opens cams cur s v n h hmem
    exact ⟨({ status := 200, body := "OK" }, cur, s),
      by simp [api_camera, h, hmem]⟩
  · intro opens cams cur s v n h hmem hop
    exact ⟨({ status := 200, body := "OK" }, n.toNat,
      switch_camera s n.toNat), by simp [api_camera, h, hmem, hop]⟩

/-- Witness for C10: the non-enumerated integer id 7 gets a response for
any device behaviour, and the enumerated id 0 gets one when its device
opens. -/
theorem c10_nonint_id_raises_witness :
    (pyInt "7" = some 7 ∧ (7 : Int) ∉ ([0, 2] : List Int) ∧
      ∃ r, api_camera (fun _ => false) [0, 2] 0 (initStreamer 0) "7" =
        Except.ok r) ∧
    (pyInt "0" = some 0 ∧ (0 : Int) ∈ ([0, 2] : List Int) ∧
      ∃ r, api_camera (fun _ => true) [0, 2] 0 (initStreamer 0) "0" =
        Except.ok r) :=
  ⟨⟨by decide, by decide,
    c10_nonint_id_raises.2.1 (fun _ => false) [0, 2] 0 (initStreamer 0)
      "7" 7 (by decide) (by decide)⟩,
   ⟨by decide, by decide,
    c10_nonint_id_raises.2.2 (fun _ => true) [0, 2] 0 (initStreamer 0)
      "0" 0 (by decide) (by decide) rfl⟩⟩

end Webcam
